import Mathlib

/-!
Verification of the billing-page resolvers and update-plan endpoints of
`corporate/views/billing_page.py`.

The three page resolvers (`billing_page`, `remote_realm_billing_page`,
`remote_server_billing_page`) and the three update endpoints (`update_plan`,
`update_plan_for_remote_realm`, `update_plan_for_remote_server`) are embedded
as explicit state-passing functions.  Database collaborators
(customer lookup, plan-row existence query, paid-plan check, billing page
context) live outside the file under verification, so they are modelled as
read operations on an explicit `DB` state; each collaborator call is also
recorded in an effect trace so that claims about which collaborators run
(and that nothing is written) can be stated and proved.
-/

set_option autoImplicit false

namespace Billing

/-- Modelled from the spec: the plan-type constants of `zerver.models.Realm`
referenced by `billing_page` live outside `src/`; the spec's PlanType closed
enum lists `STANDARD_FREE` (the community/limited-free tier of a local
organization) and `LIMITED` (the self-hosted/limited tier) among distinct
numeric tier codes. -/
def Realm.PLAN_TYPE_SELF_HOSTED : Nat := 1

/-- Modelled from the spec: the local organization's self-hosted/limited tier code. -/
def Realm.PLAN_TYPE_LIMITED : Nat := 2

/-- Modelled from the spec: the ordinary paid tier code of a local organization. -/
def Realm.PLAN_TYPE_STANDARD : Nat := 3

/-- Modelled from the spec: the community/limited-free tier code of a local
organization (sponsored organizations). -/
def Realm.PLAN_TYPE_STANDARD_FREE : Nat := 4

/-- Modelled from the spec: the plan-type constants of
`zilencer.models.RemoteRealm` live outside `src/`; distinct numeric codes for
the community tier and the self-hosted tier. -/
def RemoteRealm.PLAN_TYPE_COMMUNITY : Nat := 100

/-- Modelled from the spec: the remote realm's self-hosted tier code. -/
def RemoteRealm.PLAN_TYPE_SELF_HOSTED : Nat := 101

/-- Modelled from the spec: the remote realm's business (paid) tier code. -/
def RemoteRealm.PLAN_TYPE_BUSINESS : Nat := 102

/-- Modelled from the spec: the plan-type constants of
`zilencer.models.RemoteZulipServer` live outside `src/`. -/
def RemoteZulipServer.PLAN_TYPE_COMMUNITY : Nat := 200

/-- Modelled from the spec: the remote server's self-hosted tier code. -/
def RemoteZulipServer.PLAN_TYPE_SELF_HOSTED : Nat := 201

/-- Modelled from the spec: the remote server's business (paid) tier code. -/
def RemoteZulipServer.PLAN_TYPE_BUSINESS : Nat := 202

/-- A local organization (`zerver.models.Realm`): the fields `billing_page`
reads directly (`name`, `plan_type`). -/
structure Realm where
  name : String
  plan_type : Nat
deriving DecidableEq, Repr

/-- The acting user (`zerver.models.UserProfile`): the fields the endpoints
read directly.  `@zulip_login_required` guarantees `user.is_authenticated`
before the view body runs, so only authenticated users are modelled. -/
structure UserProfile where
  has_billing_access : Bool
  realm : Realm
deriving DecidableEq, Repr

/-- A `corporate.models.Customer` row as the resolvers read it:
only `sponsorship_pending` is consulted. -/
structure Customer where
  sponsorship_pending : Bool
deriving DecidableEq, Repr

/-- A remote realm (`zilencer.models.RemoteRealm`): fields read by
`remote_realm_billing_page`. -/
structure RemoteRealm where
  uuid : String
  name : String
  plan_type : Nat
deriving DecidableEq, Repr

/-- A remote server (`zilencer.models.RemoteZulipServer`): fields read by
`remote_server_billing_page`. -/
structure RemoteZulipServer where
  uuid : String
  hostname : String
  plan_type : Nat
deriving DecidableEq, Repr

/-- `corporate.lib.stripe.RealmBillingSession` as constructed by the views:
an acting user (may be `None`, see line 53 of the source) and a realm. -/
structure RealmBillingSession where
  user : Option UserProfile
  realm : Realm
deriving DecidableEq, Repr

/-- `RemoteRealmBillingSession`, supplied by the management-endpoint
decorator.  Its `has_billing_access()` result is carried as a field since the
method body lives outside `src/` (the decorator guarantees access on the page
endpoints, per the source comment). -/
structure RemoteRealmBillingSession where
  remote_realm : RemoteRealm
  has_billing_access : Bool
deriving DecidableEq, Repr

/-- `RemoteServerBillingSession`, supplied by the management-endpoint
decorator. -/
structure RemoteServerBillingSession where
  remote_server : RemoteZulipServer
  has_billing_access : Bool
deriving DecidableEq, Repr

/-- The database / collaborator state visible to one resolution call:
the account's Customer row (if any), the number of CustomerPlan rows for that
customer, the result of the session's paid-plan check, and the payload the
external `get_billing_page_context` collaborator would return
(empty list models the falsy empty mapping). -/
structure DB where
  customer : Option Customer
  customer_plan_count : Nat
  paid_plan : Bool
  billing_page_ctx : List (String × String)
deriving DecidableEq, Repr

/-- One collaborator call performed during resolution.  Write effects are
included in the vocabulary so that read-only-ness is a provable property of
the traces rather than a typing accident. -/
inductive Effect where
  | getCustomer
  | onPaidPlan
  | customerPlanExists
  | getBillingPageContext
  | writeCustomer
  | writeCustomerPlan
deriving DecidableEq, Repr

/-- Read effects: everything except the write effects. -/
def Effect.isRead : Effect → Bool
  | .writeCustomer => false
  | .writeCustomerPlan => false
  | _ => true

/-- Modelled from the spec: `corporate.models.get_customer_by_realm` (outside
`src/`) is a read-only lookup of the account's Customer row. -/
def get_customer_by_realm (_realm : Realm) (db : DB) :
    Option Customer × DB × List Effect :=
  (db.customer, db, [Effect.getCustomer])

/-- Modelled from the spec: `BillingSession.on_paid_plan()` (outside `src/`)
is a read-only check of whether the account is on a paid plan. -/
def RealmBillingSession.on_paid_plan (_s : RealmBillingSession) (db : DB) :
    Bool × DB × List Effect :=
  (db.paid_plan, db, [Effect.onPaidPlan])

/-- Modelled from the spec: `CustomerPlan.objects.filter(customer=...).exists()`
is a read-only existence query over the customer's plan rows. -/
def customer_plan_exists (_c : Customer) (db : DB) :
    Bool × DB × List Effect :=
  (decide (db.customer_plan_count ≠ 0), db, [Effect.customerPlanExists])

/-- Modelled from the spec: `BillingSession.get_billing_page_context()`
(outside `src/`) is a read-only collaborator producing the detailed
plan/usage context, opaque to this core. -/
def RealmBillingSession.get_billing_page_context (_s : RealmBillingSession)
    (db : DB) : List (String × String) × DB × List Effect :=
  (db.billing_page_ctx, db, [Effect.getBillingPageContext])

/-- Modelled from the spec: the remote-realm session's customer lookup,
`RemoteRealmBillingSession.get_customer()` (outside `src/`). -/
def RemoteRealmBillingSession.get_customer (_s : RemoteRealmBillingSession)
    (db : DB) : Option Customer × DB × List Effect :=
  (db.customer, db, [Effect.getCustomer])

/-- Modelled from the spec: the remote-realm session's paid-plan check. -/
def RemoteRealmBillingSession.on_paid_plan (_s : RemoteRealmBillingSession)
    (db : DB) : Bool × DB × List Effect :=
  (db.paid_plan, db, [Effect.onPaidPlan])

/-- Modelled from the spec: the remote-realm session's billing page context
collaborator. -/
def RemoteRealmBillingSession.get_billing_page_context
    (_s : RemoteRealmBillingSession) (db : DB) :
    List (String × String) × DB × List Effect :=
  (db.billing_page_ctx, db, [Effect.getBillingPageContext])

/-- Modelled from the spec: the remote-server session's customer lookup. -/
def RemoteServerBillingSession.get_customer (_s : RemoteServerBillingSession)
    (db : DB) : Option Customer × DB × List Effect :=
  (db.customer, db, [Effect.getCustomer])

/-- Modelled from the spec: the remote-server session's paid-plan check. -/
def RemoteServerBillingSession.on_paid_plan (_s : RemoteServerBillingSession)
    (db : DB) : Bool × DB × List Effect :=
  (db.paid_plan, db, [Effect.onPaidPlan])

/-- Modelled from the spec: the remote-server session's billing page context
collaborator. -/
def RemoteServerBillingSession.get_billing_page_context
    (_s : RemoteServerBillingSession) (db : DB) :
    List (String × String) × DB × List Effect :=
  (db.billing_page_ctx, db, [Effect.getBillingPageContext])

/-- The template context assembled by the resolvers.  The base keys are the
four set at the top of each view; `sponsorship_pending` models the presence of
the `"sponsorship_pending": True` key (the views only ever set it to `True`);
`main_context` holds the opaque payload merged by `context.update(main_context)`
(its keys are the collaborator's own and disjoint from the base keys);
`success_message` models the `"success_message"` key, set only when the main
context is non-empty. -/
structure BillingContext where
  admin_access : Bool
  has_active_plan : Bool
  org_name : String
  billing_base_url : String
  sponsorship_pending : Bool := false
  main_context : List (String × String) := []
  success_message : Option String := none
deriving DecidableEq, Repr

/-- The observable HTTP outcome of a resolver: a redirect built by
`reverse(viewname, args)` (keyword args modelled positionally), or a rendered
template with its context. -/
inductive HttpResponseModel where
  | redirect (viewname : String) (args : List String)
  | render (template : String) (context : BillingContext)
deriving DecidableEq, Repr

/-- The template every resolver renders. -/
def billingTemplate : String := "corporate/billing.html"

/-- The session constructed at line 53 of the source:
`RealmBillingSession(user=None, realm=user.realm)` — note the `user=None`
(the source's own BUG comment). -/
def billing_page_session (user : UserProfile) : RealmBillingSession :=
  { user := none, realm := user.realm }

/-- `billing_page` (lines 40-90): the local-organization resolver, as a
function of the acting user, the `success_message` parameter and the database
state, returning the response, the database state after the call, and the
trace of collaborator calls. -/
def billing_page (user : UserProfile) (success_message : String) (db : DB) :
    HttpResponseModel × DB × List Effect :=
  let billing_session := billing_page_session user
  let context : BillingContext :=
    { admin_access := user.has_billing_access
      has_active_plan := false
      org_name := user.realm.name
      billing_base_url := "" }
  if !user.has_billing_access then
    (.render billingTemplate context, db, [])
  else if user.realm.plan_type = Realm.PLAN_TYPE_STANDARD_FREE then
    (.redirect "sponsorship_request" [], db, [])
  else
    match get_customer_by_realm user.realm db with
    | (customer, db1, t1) =>
      let sponsorship :
          Option HttpResponseModel × BillingContext × DB × List Effect :=
        match customer with
        | some c =>
          if c.sponsorship_pending then
            match billing_session.on_paid_plan db1 with
            | (paid, db2, t2) =>
              if !paid then
                (some (.redirect "sponsorship_request" []), context, db2,
                  t1 ++ t2)
              else
                (none, { context with sponsorship_pending := true }, db2,
                  t1 ++ t2)
          else (none, context, db1, t1)
        | none => (none, context, db1, t1)
      match sponsorship with
      | (some resp, _, db2, t) => (resp, db2, t)
      | (none, ctx, db2, t) =>
        if user.realm.plan_type = Realm.PLAN_TYPE_LIMITED then
          (.redirect "plans" [], db2, t)
        else
          match customer with
          | none => (.redirect "upgrade_page" [], db2, t)
          | some c =>
            match customer_plan_exists c db2 with
            | (ex, db3, t3) =>
              if !ex then (.redirect "upgrade_page" [], db3, t ++ t3)
              else
                match billing_session.get_billing_page_context db3 with
                | (main_context, db4, t4) =>
                  let ctx2 :=
                    if main_context.isEmpty then ctx
                    else { ctx with
                            main_context := main_context,
                            success_message := some success_message }
                  (.render billingTemplate ctx2, db4, t ++ t3 ++ t4)

/-- `remote_realm_billing_page` (lines 93-137): the remote-realm resolver.
The management-endpoint decorator guarantees billing access, so the view has
no access check; `admin_access` is filled from `has_billing_access()`
(an in-memory capability check, not a database collaborator). -/
def remote_realm_billing_page (billing_session : RemoteRealmBillingSession)
    (success_message : String) (db : DB) :
    HttpResponseModel × DB × List Effect :=
  let realm_uuid := billing_session.remote_realm.uuid
  let context : BillingContext :=
    { admin_access := billing_session.has_billing_access
      has_active_plan := false
      org_name := billing_session.remote_realm.name
      billing_base_url := "/realm/" ++ realm_uuid }
  if billing_session.remote_realm.plan_type = RemoteRealm.PLAN_TYPE_COMMUNITY then
    (.redirect "remote_realm_sponsorship_page" [realm_uuid], db, [])
  else
    match billing_session.get_customer db with
    | (customer, db1, t1) =>
      let sponsorship :
          Option HttpResponseModel × BillingContext × DB × List Effect :=
        match customer with
        | some c =>
          if c.sponsorship_pending then
            match billing_session.on_paid_plan db1 with
            | (paid, db2, t2) =>
              if !paid then
                (some (.redirect "remote_realm_sponsorship_page" [realm_uuid]),
                  context, db2, t1 ++ t2)
              else
                (none, { context with sponsorship_pending := true }, db2,
                  t1 ++ t2)
          else (none, context, db1, t1)
        | none => (none, context, db1, t1)
      match sponsorship with
      | (some resp, _, db2, t) => (resp, db2, t)
      | (none, ctx, db2, t) =>
        if billing_session.remote_realm.plan_type
            = RemoteRealm.PLAN_TYPE_SELF_HOSTED then
          (.redirect "remote_realm_plans_page" [realm_uuid], db2, t)
        else
          match customer with
          | none => (.redirect "remote_realm_upgrade_page" [realm_uuid], db2, t)
          | some c =>
            match customer_plan_exists c db2 with
            | (ex, db3, t3) =>
              if !ex then
                (.redirect "remote_realm_upgrade_page" [realm_uuid], db3,
                  t ++ t3)
              else
                match billing_session.get_billing_page_context db3 with
                | (main_context, db4, t4) =>
                  let ctx2 :=
                    if main_context.isEmpty then ctx
                    else { ctx with
                            main_context := main_context,
                            success_message := some success_message }
                  (.render billingTemplate ctx2, db4, t ++ t3 ++ t4)

/-- `remote_server_billing_page` (lines 140-194): the remote-server resolver.
Unlike the other two variants, the self-hosted tier check is merged into a
single short-circuiting condition with the no-customer and no-plan-row checks
(lines 177-181), and all three redirect to `remote_server_upgrade_page`. -/
def remote_server_billing_page (billing_session : RemoteServerBillingSession)
    (success_message : String) (db : DB) :
    HttpResponseModel × DB × List Effect :=
  let server_uuid := billing_session.remote_server.uuid
  let context : BillingContext :=
    { admin_access := billing_session.has_billing_access
      has_active_plan := false
      org_name := billing_session.remote_server.hostname
      billing_base_url := "/server/" ++ server_uuid }
  if billing_session.remote_server.plan_type
      = RemoteZulipServer.PLAN_TYPE_COMMUNITY then
    (.redirect "remote_server_sponsorship_page" [server_uuid], db, [])
  else
    match billing_session.get_customer db with
    | (customer, db1, t1) =>
      let sponsorship :
          Option HttpResponseModel × BillingContext × DB × List Effect :=
        match customer with
        | some c =>
          if c.sponsorship_pending then
            match billing_session.on_paid_plan db1 with
            | (paid, db2, t2) =>
              if !paid then
                (some (.redirect "remote_server_sponsorship_page" [server_uuid]),
                  context, db2, t1 ++ t2)
              else
                (none, { context with sponsorship_pending := true }, db2,
                  t1 ++ t2)
          else (none, context, db1, t1)
        | none => (none, context, db1, t1)
      match sponsorship with
      | (some resp, _, db2, t) => (resp, db2, t)
      | (none, ctx, db2, t) =>
        let merged_condition : Bool × DB × List Effect :=
          if billing_session.remote_server.plan_type
              = RemoteZulipServer.PLAN_TYPE_SELF_HOSTED then
            (true, db2, [])
          else
            match customer with
            | none => (true, db2, [])
            | some c =>
              match customer_plan_exists c db2 with
              | (ex, db3, t3) => (!ex, db3, t3)
        match merged_condition with
        | (cond, db3, t3) =>
          if cond then
            (.redirect "remote_server_upgrade_page" [server_uuid], db3, t ++ t3)
          else
            match billing_session.get_billing_page_context db3 with
            | (main_context, db4, t4) =>
              let ctx2 :=
                if main_context.isEmpty then ctx
                else { ctx with
                        main_context := main_context,
                        success_message := some success_message }
              (.render billingTemplate ctx2, db4, t ++ t3 ++ t4)

/-- Modelled from the spec: the `CustomerPlan` status constants of
`corporate/models.py` (outside `src/`).  The spec's PlanStatus closed enum
names seven externally settable values; the model also carries internal
bookkeeping values (such as a plan-tier switch and a never-started state)
that exist internally but are not externally settable. -/
def CustomerPlan.ACTIVE : Int := 1

/-- Modelled from the spec: scheduled end-of-cycle downgrade status code. -/
def CustomerPlan.DOWNGRADE_AT_END_OF_CYCLE : Int := 2

/-- Modelled from the spec: free-trial status code. -/
def CustomerPlan.FREE_TRIAL : Int := 3

/-- Modelled from the spec: scheduled switch-to-annual status code. -/
def CustomerPlan.SWITCH_TO_ANNUAL_AT_END_OF_CYCLE : Int := 4

/-- Modelled from the spec: an internal lifecycle-bookkeeping status code
(immediate plan-tier switch) that is not externally settable. -/
def CustomerPlan.SWITCH_PLAN_TIER_NOW : Int := 5

/-- Modelled from the spec: scheduled switch-to-monthly status code. -/
def CustomerPlan.SWITCH_TO_MONTHLY_AT_END_OF_CYCLE : Int := 6

/-- Modelled from the spec: scheduled end-of-free-trial downgrade status code. -/
def CustomerPlan.DOWNGRADE_AT_END_OF_FREE_TRIAL : Int := 7

/-- Modelled from the spec: terminal ended status code. -/
def CustomerPlan.ENDED : Int := 11

/-- Modelled from the spec: an internal never-started status code that is not
externally settable. -/
def CustomerPlan.NEVER_STARTED : Int := 12

/-- Modelled from the spec: the billing-cadence codes (monthly/annual) of
`corporate/models.py` (outside `src/`), the small closed enumeration the
spec says the `schedule` field is restricted to. -/
def CustomerPlan.BILLING_SCHEDULE_ANNUAL : Int := 1

/-- Modelled from the spec: the monthly billing-cadence code. -/
def CustomerPlan.BILLING_SCHEDULE_MONTHLY : Int := 2

/-- `ALLOWED_PLANS_API_STATUS_VALUES` (lines 29-37): the closed set of legal
targets for the `status` request field. -/
def ALLOWED_PLANS_API_STATUS_VALUES : List Int :=
  [CustomerPlan.ACTIVE,
   CustomerPlan.DOWNGRADE_AT_END_OF_CYCLE,
   CustomerPlan.SWITCH_TO_ANNUAL_AT_END_OF_CYCLE,
   CustomerPlan.SWITCH_TO_MONTHLY_AT_END_OF_CYCLE,
   CustomerPlan.FREE_TRIAL,
   CustomerPlan.DOWNGRADE_AT_END_OF_FREE_TRIAL,
   CustomerPlan.ENDED]

/-- A boundary-validation failure raised by a `json_validator` while
`has_request_variables` extracts the request parameters, before the view body
runs. -/
inductive ValidationError where
  | notInt (var_name : String)
  | notInAllowedList (var_name : String)
deriving DecidableEq, Repr

/-- Modelled from the spec: `zerver.lib.validator.check_int` (outside `src/`),
the generic request-parameter parsing/validation plumbing: it checks that the
supplied value is an integer and imposes no further restriction.  Raw request
values are modelled at the point where integer-ness is already established,
so the check always succeeds. -/
def check_int (_var_name : String) (val : Int) : Except ValidationError Int :=
  .ok val

/-- Modelled from the spec: `zerver.lib.validator.check_int_in(possible_values)`
(outside `src/`): checks integer-ness and then membership in the closed list,
rejecting everything else. -/
def check_int_in (possible_values : List Int) (var_name : String) (val : Int) :
    Except ValidationError Int :=
  match check_int var_name val with
  | .error e => .error e
  | .ok n =>
    if n ∈ possible_values then .ok n
    else .error (.notInAllowedList var_name)

/-- An optional request parameter with `default=None`: absent parameters stay
`none`; present parameters pass through the field's `json_validator`. -/
def validate_optional
    (validator : String → Int → Except ValidationError Int)
    (var_name : String) : Option Int → Except ValidationError (Option Int)
  | none => .ok none
  | some v => (validator var_name v).map some

/-- `corporate.lib.stripe.UpdatePlanRequest`: the transient value object
passed to `do_update_plan`. -/
structure UpdatePlanRequest where
  status : Option Int
  licenses : Option Int
  licenses_at_next_renewal : Option Int
  schedule : Option Int
deriving DecidableEq, Repr

/-- Modelled from the spec: `RealmBillingSession(user=user)` as constructed at
line 219; the session's realm is derived from the acting user when not given
explicitly (the constructor lives outside `src/`). -/
def update_plan_session (user : UserProfile) : RealmBillingSession :=
  { user := some user, realm := user.realm }

/-- `update_plan` (lines 197-221): the local-organization update endpoint.
`has_request_variables` runs each declared `json_validator` in parameter
order while extracting the request, so a validation failure is returned
before the view body (and hence before `do_update_plan`) runs.  The `.ok`
payload is exactly the invocation the body performs: the session passed to
`do_update_plan` and the `UpdatePlanRequest` built from the validated fields,
after which `json_success` is returned. -/
def update_plan (user : UserProfile)
    (status licenses licenses_at_next_renewal schedule : Option Int) :
    Except ValidationError (RealmBillingSession × UpdatePlanRequest) :=
  match validate_optional
      (check_int_in ALLOWED_PLANS_API_STATUS_VALUES) "status" status with
  | .error e => .error e
  | .ok status =>
    match validate_optional check_int "licenses" licenses with
    | .error e => .error e
    | .ok licenses =>
      match validate_optional check_int "licenses_at_next_renewal"
          licenses_at_next_renewal with
      | .error e => .error e
      | .ok licenses_at_next_renewal =>
        match validate_optional check_int "schedule" schedule with
        | .error e => .error e
        | .ok schedule =>
          .ok (update_plan_session user,
            { status := status
              licenses := licenses
              licenses_at_next_renewal := licenses_at_next_renewal
              schedule := schedule })

/-- `update_plan_for_remote_realm` (lines 224-247): the remote-realm update
endpoint; the session is supplied by the management-endpoint decorator and
the declared validators are the same as `update_plan`'s. -/
def update_plan_for_remote_realm (billing_session : RemoteRealmBillingSession)
    (status licenses licenses_at_next_renewal schedule : Option Int) :
    Except ValidationError (RemoteRealmBillingSession × UpdatePlanRequest) :=
  match validate_optional
      (check_int_in ALLOWED_PLANS_API_STATUS_VALUES) "status" status with
  | .error e => .error e
  | .ok status =>
    match validate_optional check_int "licenses" licenses with
    | .error e => .error e
    | .ok licenses =>
      match validate_optional check_int "licenses_at_next_renewal"
          licenses_at_next_renewal with
      | .error e => .error e
      | .ok licenses_at_next_renewal =>
        match validate_optional check_int "schedule" schedule with
        | .error e => .error e
        | .ok schedule =>
          .ok (billing_session,
            { status := status
              licenses := licenses
              licenses_at_next_renewal := licenses_at_next_renewal
              schedule := schedule })

/-- `update_plan_for_remote_server` (lines 250-273): the remote-server update
endpoint; same declared validators as the other two entry points. -/
def update_plan_for_remote_server (billing_session : RemoteServerBillingSession)
    (status licenses licenses_at_next_renewal schedule : Option Int) :
    Except ValidationError (RemoteServerBillingSession × UpdatePlanRequest) :=
  match validate_optional
      (check_int_in ALLOWED_PLANS_API_STATUS_VALUES) "status" status with
  | .error e => .error e
  | .ok status =>
    match validate_optional check_int "licenses" licenses with
    | .error e => .error e
    | .ok licenses =>
      match validate_optional check_int "licenses_at_next_renewal"
          licenses_at_next_renewal with
      | .error e => .error e
      | .ok licenses_at_next_renewal =>
        match validate_optional check_int "schedule" schedule with
        | .error e => .error e
        | .ok schedule =>
          .ok (billing_session,
            { status := status
              licenses := licenses
              licenses_at_next_renewal := licenses_at_next_renewal
              schedule := schedule })

/-! Concrete fixtures used to instantiate the theorems below. -/

/-- A paid-tier local realm. -/
def sampleRealm : Realm :=
  { name := "zulip-dev", plan_type := Realm.PLAN_TYPE_STANDARD }

/-- A billing-admin user of the paid-tier realm. -/
def sampleUser : UserProfile :=
  { has_billing_access := true, realm := sampleRealm }

/-- A billing admin on a community/limited-free tier realm. -/
def freeTierUser : UserProfile :=
  { has_billing_access := true
    realm := { name := "sponsored-org", plan_type := Realm.PLAN_TYPE_STANDARD_FREE } }

/-- A billing admin on a limited-tier realm. -/
def limitedTierUser : UserProfile :=
  { has_billing_access := true
    realm := { name := "limited-org", plan_type := Realm.PLAN_TYPE_LIMITED } }

/-- A paid-tier remote realm session. -/
def sampleRemoteRealmSession : RemoteRealmBillingSession :=
  { remote_realm :=
      { uuid := "realm-uuid", name := "remote-org",
        plan_type := RemoteRealm.PLAN_TYPE_BUSINESS }
    has_billing_access := true }

/-- A community-tier remote realm session. -/
def communityRemoteRealmSession : RemoteRealmBillingSession :=
  { remote_realm :=
      { uuid := "realm-uuid", name := "remote-org",
        plan_type := RemoteRealm.PLAN_TYPE_COMMUNITY }
    has_billing_access := true }

/-- A self-hosted-tier remote realm session. -/
def selfHostedRemoteRealmSession : RemoteRealmBillingSession :=
  { remote_realm :=
      { uuid := "realm-uuid", name := "remote-org",
        plan_type := RemoteRealm.PLAN_TYPE_SELF_HOSTED }
    has_billing_access := true }

/-- A paid-tier remote server session. -/
def sampleRemoteServerSession : RemoteServerBillingSession :=
  { remote_server :=
      { uuid := "server-uuid", hostname := "zulip.example.com",
        plan_type := RemoteZulipServer.PLAN_TYPE_BUSINESS }
    has_billing_access := true }

/-- A community-tier remote server session. -/
def communityRemoteServerSession : RemoteServerBillingSession :=
  { remote_server :=
      { uuid := "server-uuid", hostname := "zulip.example.com",
        plan_type := RemoteZulipServer.PLAN_TYPE_COMMUNITY }
    has_billing_access := true }

/-- A self-hosted-tier remote server session. -/
def selfHostedRemoteServerSession : RemoteServerBillingSession :=
  { remote_server :=
      { uuid := "server-uuid", hostname := "zulip.example.com",
        plan_type := RemoteZulipServer.PLAN_TYPE_SELF_HOSTED }
    has_billing_access := true }

/-- Database state: a customer with a pending sponsorship, on a paid plan,
with one plan row and a non-empty billing page context. -/
def paidPendingDB : DB :=
  { customer := some { sponsorship_pending := true }
    customer_plan_count := 1
    paid_plan := true
    billing_page_ctx := [("plan_name", "Zulip Cloud Standard")] }

/-- Database state: a customer with no pending sponsorship and one plan row. -/
def paidClearDB : DB :=
  { customer := some { sponsorship_pending := false }
    customer_plan_count := 1
    paid_plan := true
    billing_page_ctx := [("plan_name", "Zulip Cloud Standard")] }

/-- Database state: a customer exists but has zero plan rows. -/
def zeroPlanRowsDB : DB :=
  { customer := some { sponsorship_pending := false }
    customer_plan_count := 0
    paid_plan := false
    billing_page_ctx := [] }

/-- Database state: no customer at all. -/
def noCustomerDB : DB :=
  { customer := none
    customer_plan_count := 0
    paid_plan := false
    billing_page_ctx := [] }

/-- Claim C1: for every AccountContext variant, the resolver evaluates the
decision steps in the fixed spec order with first match winning: an account
on the community/limited-free tier whose Customer has a pending sponsorship
resolves to the step-2 sponsorship redirect with an empty collaborator trace,
so the Customer is never fetched and the step-3 sponsorship branch is never
reached.  (For the local variant the step-1 access check precedes step 2, so
billing access is assumed.) -/
theorem community_tier_redirects_sponsorship_before_customer_fetch
    (u : UserProfile) (msg1 : String) (db1 : DB) (c1 : Customer)
    (rrs : RemoteRealmBillingSession) (msg2 : String) (db2 : DB) (c2 : Customer)
    (rss : RemoteServerBillingSession) (msg3 : String) (db3 : DB) (c3 : Customer)
    (hacc : u.has_billing_access = true)
    (hp1 : u.realm.plan_type = Realm.PLAN_TYPE_STANDARD_FREE)
    (hc1 : db1.customer = some c1) (hs1 : c1.sponsorship_pending = true)
    (hp2 : rrs.remote_realm.plan_type = RemoteRealm.PLAN_TYPE_COMMUNITY)
    (hc2 : db2.customer = some c2) (hs2 : c2.sponsorship_pending = true)
    (hp3 : rss.remote_server.plan_type = RemoteZulipServer.PLAN_TYPE_COMMUNITY)
    (hc3 : db3.customer = some c3) (hs3 : c3.sponsorship_pending = true) :
    billing_page u msg1 db1
      = (.redirect "sponsorship_request" [], db1, [])
    ∧ remote_realm_billing_page rrs msg2 db2
      = (.redirect "remote_realm_sponsorship_page" [rrs.remote_realm.uuid],
          db2, [])
    ∧ remote_server_billing_page rss msg3 db3
      = (.redirect "remote_server_sponsorship_page" [rss.remote_server.uuid],
          db3, []) := by
  refine ⟨?_, ?_, ?_⟩
  · simp [billing_page, hacc, hp1]
  · simp [remote_realm_billing_page, hp2]
  · simp [remote_server_billing_page, hp3]

/-- Claim C1 witness: concrete community/limited-free-tier accounts with a
pending-sponsorship customer resolve to the step-2 sponsorship redirect
without any collaborator call. -/
theorem community_tier_redirects_sponsorship_before_customer_fetch_witness :
    billing_page freeTierUser "" paidPendingDB
      = (.redirect "sponsorship_request" [], paidPendingDB, [])
    ∧ remote_realm_billing_page communityRemoteRealmSession "" paidPendingDB
      = (.redirect "remote_realm_sponsorship_page" ["realm-uuid"],
          paidPendingDB, [])
    ∧ remote_server_billing_page communityRemoteServerSession "" paidPendingDB
      = (.redirect "remote_server_sponsorship_page" ["server-uuid"],
          paidPendingDB, []) :=
  community_tier_redirects_sponsorship_before_customer_fetch
    freeTierUser "" paidPendingDB { sponsorship_pending := true }
    communityRemoteRealmSession "" paidPendingDB { sponsorship_pending := true }
    communityRemoteServerSession "" paidPendingDB { sponsorship_pending := true }
    (by decide) (by decide) (by decide) (by decide)
    (by decide) (by decide) (by decide) (by decide)
    (by decide) (by decide)

/-- Claim C3 counterexample: the remote-server resolver does not send a
self-hosted-tier account to a tier-specific plans destination.  On a concrete
self-hosted remote server with a customer on a paid plan with plan rows, it
redirects to `remote_server_upgrade_page` — the very target of the
no-customer step-5 redirect — and not to a plans-page target. -/
theorem remote_server_self_hosted_redirects_to_upgrade_cex :
    (remote_server_billing_page selfHostedRemoteServerSession "" paidClearDB).1
      = .redirect "remote_server_upgrade_page" ["server-uuid"]
    ∧ (remote_server_billing_page selfHostedRemoteServerSession "" noCustomerDB).1
      = .redirect "remote_server_upgrade_page" ["server-uuid"]
    ∧ (remote_server_billing_page selfHostedRemoteServerSession "" paidClearDB).1
      ≠ .redirect "remote_server_plans_page" ["server-uuid"] := by
  refine ⟨rfl, rfl, ?_⟩
  decide

/-- Claim C3 (amended): with billing access and no earlier-step match, a
step-4-tier account is redirected by the local resolver to the generic plans
page and by the remote-realm resolver to its tier-specific plans page, but by
the remote-server resolver to its upgrade page — the same destination as its
steps 5 and 6 — the decision ordering being otherwise identical. -/
theorem self_hosted_tier_step4_redirect_targets
    (u : UserProfile) (msg1 : String) (db1 : DB)
    (rrs : RemoteRealmBillingSession) (msg2 : String) (db2 : DB)
    (rss : RemoteServerBillingSession) (msg3 : String) (db3 : DB)
    (hacc : u.has_billing_access = true)
    (hp1 : u.realm.plan_type = Realm.PLAN_TYPE_LIMITED)
    (hns1 : ∀ cust : Customer, db1.customer = some cust →
      cust.sponsorship_pending = true → db1.paid_plan = true)
    (hp2 : rrs.remote_realm.plan_type = RemoteRealm.PLAN_TYPE_SELF_HOSTED)
    (hns2 : ∀ cust : Customer, db2.customer = some cust →
      cust.sponsorship_pending = true → db2.paid_plan = true)
    (hp3 : rss.remote_server.plan_type = RemoteZulipServer.PLAN_TYPE_SELF_HOSTED)
    (hns3 : ∀ cust : Customer, db3.customer = some cust →
      cust.sponsorship_pending = true → db3.paid_plan = true) :
    (billing_page u msg1 db1).1 = .redirect "plans" []
    ∧ (remote_realm_billing_page rrs msg2 db2).1
      = .redirect "remote_realm_plans_page" [rrs.remote_realm.uuid]
    ∧ (remote_server_billing_page rss msg3 db3).1
      = .redirect "remote_server_upgrade_page" [rss.remote_server.uuid] := by
  refine ⟨?_, ?_, ?_⟩
  · cases hc : db1.customer with
    | none =>
      simp [billing_page, hacc, hp1, get_customer_by_realm, hc,
        Realm.PLAN_TYPE_LIMITED, Realm.PLAN_TYPE_STANDARD_FREE]
    | some cust =>
      cases hsp : cust.sponsorship_pending with
      | false =>
        simp [billing_page, hacc, hp1, get_customer_by_realm, hc, hsp,
          Realm.PLAN_TYPE_LIMITED, Realm.PLAN_TYPE_STANDARD_FREE]
      | true =>
        have hpaid := hns1 cust hc hsp
        simp [billing_page, hacc, hp1, get_customer_by_realm,
          RealmBillingSession.on_paid_plan, hc, hsp, hpaid,
          Realm.PLAN_TYPE_LIMITED, Realm.PLAN_TYPE_STANDARD_FREE]
  · cases hc : db2.customer with
    | none =>
      simp [remote_realm_billing_page, hp2,
        RemoteRealmBillingSession.get_customer, hc,
        RemoteRealm.PLAN_TYPE_SELF_HOSTED, RemoteRealm.PLAN_TYPE_COMMUNITY]
    | some cust =>
      cases hsp : cust.sponsorship_pending with
      | false =>
        simp [remote_realm_billing_page, hp2,
          RemoteRealmBillingSession.get_customer, hc, hsp,
          RemoteRealm.PLAN_TYPE_SELF_HOSTED, RemoteRealm.PLAN_TYPE_COMMUNITY]
      | true =>
        have hpaid := hns2 cust hc hsp
        simp [remote_realm_billing_page, hp2,
          RemoteRealmBillingSession.get_customer,
          RemoteRealmBillingSession.on_paid_plan, hc, hsp, hpaid,
          RemoteRealm.PLAN_TYPE_SELF_HOSTED, RemoteRealm.PLAN_TYPE_COMMUNITY]
  · cases hc : db3.customer with
    | none =>
      simp [remote_server_billing_page, hp3,
        RemoteServerBillingSession.get_customer, hc,
        RemoteZulipServer.PLAN_TYPE_SELF_HOSTED,
        RemoteZulipServer.PLAN_TYPE_COMMUNITY]
    | some cust =>
      cases hsp : cust.sponsorship_pending with
      | false =>
        simp [remote_server_billing_page, hp3,
          RemoteServerBillingSession.get_customer, hc, hsp,
          RemoteZulipServer.PLAN_TYPE_SELF_HOSTED,
          RemoteZulipServer.PLAN_TYPE_COMMUNITY]
      | true =>
        have hpaid := hns3 cust hc hsp
        simp [remote_server_billing_page, hp3,
          RemoteServerBillingSession.get_customer,
          RemoteServerBillingSession.on_paid_plan, hc, hsp, hpaid,
          RemoteZulipServer.PLAN_TYPE_SELF_HOSTED,
          RemoteZulipServer.PLAN_TYPE_COMMUNITY]

/-- Claim C3 (amended) witness: concrete step-4-tier accounts with a
paid-plan pending-sponsorship customer reach step 4 and get each variant's
actual redirect target. -/
theorem self_hosted_tier_step4_redirect_targets_witness :
    (billing_page limitedTierUser "" paidPendingDB).1 = .redirect "plans" []
    ∧ (remote_realm_billing_page selfHostedRemoteRealmSession "" paidPendingDB).1
      = .redirect "remote_realm_plans_page" ["realm-uuid"]
    ∧ (remote_server_billing_page selfHostedRemoteServerSession "" paidPendingDB).1
      = .redirect "remote_server_upgrade_page" ["server-uuid"] :=
  self_hosted_tier_step4_redirect_targets
    limitedTierUser "" paidPendingDB
    selfHostedRemoteRealmSession "" paidPendingDB
    selfHostedRemoteServerSession "" paidPendingDB
    rfl rfl (fun _ _ _ => rfl) rfl (fun _ _ _ => rfl) rfl (fun _ _ _ => rfl)

/-- Claim C2: at every one of the three update-plan entry points, a request
whose status field carries a value outside the seven-element allowed set is
rejected by the boundary validator (so `do_update_plan` is never invoked:
rejection precedes the `.ok` payload that carries the invocation), and the
rejection is the identical `status` validation error across the three
variants, whatever the other fields hold. -/
theorem invalid_status_rejected_at_boundary
    (s : Int) (l r c : Option Int) (u : UserProfile)
    (rrs : RemoteRealmBillingSession) (rss : RemoteServerBillingSession)
    (h : s ∉ ALLOWED_PLANS_API_STATUS_VALUES) :
    update_plan u (some s) l r c = .error (.notInAllowedList "status")
    ∧ update_plan_for_remote_realm rrs (some s) l r c
      = .error (.notInAllowedList "status")
    ∧ update_plan_for_remote_server rss (some s) l r c
      = .error (.notInAllowedList "status") := by
  refine ⟨?_, ?_, ?_⟩ <;>
    simp [update_plan, update_plan_for_remote_realm,
      update_plan_for_remote_server, validate_optional, check_int_in,
      check_int, h, Except.map]

/-- Claim C2 witness: the internal plan-tier-switch status code is outside
the allowed set, and a concrete request carrying it is rejected identically
at all three entry points. -/
theorem invalid_status_rejected_at_boundary_witness :
    CustomerPlan.SWITCH_PLAN_TIER_NOW ∉ ALLOWED_PLANS_API_STATUS_VALUES
    ∧ update_plan sampleUser (some CustomerPlan.SWITCH_PLAN_TIER_NOW)
        none none none = .error (.notInAllowedList "status")
    ∧ update_plan_for_remote_realm sampleRemoteRealmSession
        (some CustomerPlan.SWITCH_PLAN_TIER_NOW) none none none
      = .error (.notInAllowedList "status")
    ∧ update_plan_for_remote_server sampleRemoteServerSession
        (some CustomerPlan.SWITCH_PLAN_TIER_NOW) none none none
      = .error (.notInAllowedList "status") := by
  have h : CustomerPlan.SWITCH_PLAN_TIER_NOW ∉ ALLOWED_PLANS_API_STATUS_VALUES := by
    decide
  have := invalid_status_rejected_at_boundary CustomerPlan.SWITCH_PLAN_TIER_NOW
    none none none sampleUser sampleRemoteRealmSession
    sampleRemoteServerSession h
  exact ⟨h, this.1, this.2.1, this.2.2⟩

/-- Claim C9: the local-organization resolver constructs its billing session
with no acting user (`user=None`, the source's own BUG comment at lines
50-53), while the local-organization update endpoint constructs its session
with the acting user. -/
theorem local_resolver_session_has_no_acting_user (u : UserProfile) :
    (billing_page_session u).user = none
    ∧ ∀ (s l r c : Option Int) (sess : RealmBillingSession)
        (req : UpdatePlanRequest),
        update_plan u s l r c = .ok (sess, req) → sess.user = some u := by
  refine ⟨rfl, ?_⟩
  intro s l r c sess req hok
  unfold update_plan at hok
  repeat' split at hok
  all_goals simp_all [validate_optional, check_int, check_int_in]
  all_goals (rw [← hok.1]; rfl)

/-- Claim C9 witness: for a concrete user, the resolver's session carries no
acting user while the update endpoint's session carries the acting user. -/
theorem local_resolver_session_has_no_acting_user_witness :
    (billing_page_session sampleUser).user = none
    ∧ (update_plan_session sampleUser).user = some sampleUser := by
  refine ⟨(local_resolver_session_has_no_acting_user sampleUser).1, ?_⟩
  exact (local_resolver_session_has_no_acting_user sampleUser).2
    none none none none (update_plan_session sampleUser)
    { status := none, licenses := none, licenses_at_next_renewal := none,
      schedule := none } rfl

/-- Claim C10: a local-organization request by a user without billing access
returns the rendered billing page with exactly the base context
(admin access false, no active plan, the realm's name, empty billing base
url, no sponsorship-pending key, no main context, no success message) and an
empty collaborator trace: no Customer lookup, no CustomerPlan lookup, and no
billing-page-context call. -/
theorem no_billing_access_renders_base_context_without_lookups
    (u : UserProfile) (msg : String) (db : DB)
    (h : u.has_billing_access = false) :
    billing_page u msg db
      = (.render billingTemplate
          { admin_access := false
            has_active_plan := false
            org_name := u.realm.name
            billing_base_url := ""
            sponsorship_pending := false
            main_context := []
            success_message := none }, db, []) := by
  simp [billing_page, h]

/-- Claim C10 witness: a concrete no-access user gets the base-context render
with an empty collaborator trace. -/
theorem no_billing_access_renders_base_context_without_lookups_witness :
    billing_page { has_billing_access := false, realm := sampleRealm }
      "msg" paidPendingDB
      = (.render billingTemplate
          { admin_access := false
            has_active_plan := false
            org_name := "zulip-dev"
            billing_base_url := ""
            sponsorship_pending := false
            main_context := []
            success_message := none }, paidPendingDB, []) :=
  no_billing_access_renders_base_context_without_lookups
    { has_billing_access := false, realm := sampleRealm } "msg" paidPendingDB
    rfl

/-- Claim C4: for every variant, an account with billing access, a plan type
that is neither the community/limited-free tier nor the self-hosted/limited
tier, a Customer with a pending sponsorship, on a paid plan, with at least
one CustomerPlan row, gets the rendered billing page with the
sponsorship-pending flag set true in the resulting context, not a
sponsorship redirect. -/
theorem sponsorship_pending_on_paid_plan_shows_billing_page
    (u : UserProfile) (msg1 : String) (db1 : DB) (c1 : Customer)
    (rrs : RemoteRealmBillingSession) (msg2 : String) (db2 : DB) (c2 : Customer)
    (rss : RemoteServerBillingSession) (msg3 : String) (db3 : DB) (c3 : Customer)
    (hacc : u.has_billing_access = true)
    (hfree1 : u.realm.plan_type ≠ Realm.PLAN_TYPE_STANDARD_FREE)
    (hlim1 : u.realm.plan_type ≠ Realm.PLAN_TYPE_LIMITED)
    (hc1 : db1.customer = some c1) (hsp1 : c1.sponsorship_pending = true)
    (hpaid1 : db1.paid_plan = true) (hrows1 : db1.customer_plan_count ≠ 0)
    (hcom2 : rrs.remote_realm.plan_type ≠ RemoteRealm.PLAN_TYPE_COMMUNITY)
    (hsh2 : rrs.remote_realm.plan_type ≠ RemoteRealm.PLAN_TYPE_SELF_HOSTED)
    (hc2 : db2.customer = some c2) (hsp2 : c2.sponsorship_pending = true)
    (hpaid2 : db2.paid_plan = true) (hrows2 : db2.customer_plan_count ≠ 0)
    (hcom3 : rss.remote_server.plan_type ≠ RemoteZulipServer.PLAN_TYPE_COMMUNITY)
    (hsh3 : rss.remote_server.plan_type ≠ RemoteZulipServer.PLAN_TYPE_SELF_HOSTED)
    (hc3 : db3.customer = some c3) (hsp3 : c3.sponsorship_pending = true)
    (hpaid3 : db3.paid_plan = true) (hrows3 : db3.customer_plan_count ≠ 0) :
    (∃ ctx : BillingContext, (billing_page u msg1 db1).1
        = .render billingTemplate ctx ∧ ctx.sponsorship_pending = true)
    ∧ (∃ ctx : BillingContext, (remote_realm_billing_page rrs msg2 db2).1
        = .render billingTemplate ctx ∧ ctx.sponsorship_pending = true)
    ∧ (∃ ctx : BillingContext, (remote_server_billing_page rss msg3 db3).1
        = .render billingTemplate ctx ∧ ctx.sponsorship_pending = true) := by
  refine ⟨?_, ?_, ?_⟩
  · simp only [billing_page, billing_page_session, get_customer_by_realm,
      RealmBillingSession.on_paid_plan, customer_plan_exists,
      RealmBillingSession.get_billing_page_context, hacc, hfree1, hlim1,
      hc1, hsp1, hpaid1, hrows1]
    simp [hfree1, hlim1, hrows1]
    split <;> rfl
  · simp only [remote_realm_billing_page,
      RemoteRealmBillingSession.get_customer,
      RemoteRealmBillingSession.on_paid_plan, customer_plan_exists,
      RemoteRealmBillingSession.get_billing_page_context,
      hc2, hsp2, hpaid2]
    simp [hcom2, hsh2, hrows2]
    split <;> rfl
  · simp only [remote_server_billing_page,
      RemoteServerBillingSession.get_customer,
      RemoteServerBillingSession.on_paid_plan, customer_plan_exists,
      RemoteServerBillingSession.get_billing_page_context,
      hc3, hsp3, hpaid3]
    simp [hcom3, hsh3, hrows3]
    split <;> rfl

/-- Claim C4 witness: concrete paid-tier accounts with a pending-sponsorship
paid-plan customer and a plan row get the billing page with the pending flag
set, in all three variants. -/
theorem sponsorship_pending_on_paid_plan_shows_billing_page_witness :
    (∃ ctx : BillingContext, (billing_page sampleUser "" paidPendingDB).1
        = .render billingTemplate ctx ∧ ctx.sponsorship_pending = true)
    ∧ (∃ ctx : BillingContext,
        (remote_realm_billing_page sampleRemoteRealmSession "" paidPendingDB).1
          = .render billingTemplate ctx ∧ ctx.sponsorship_pending = true)
    ∧ (∃ ctx : BillingContext,
        (remote_server_billing_page sampleRemoteServerSession "" paidPendingDB).1
          = .render billingTemplate ctx ∧ ctx.sponsorship_pending = true) :=
  sponsorship_pending_on_paid_plan_shows_billing_page
    sampleUser "" paidPendingDB { sponsorship_pending := true }
    sampleRemoteRealmSession "" paidPendingDB { sponsorship_pending := true }
    sampleRemoteServerSession "" paidPendingDB { sponsorship_pending := true }
    rfl (by decide) (by decide) rfl rfl rfl (by decide)
    (by decide) (by decide) rfl rfl rfl (by decide)
    (by decide) (by decide) rfl rfl rfl (by decide)

/-- Claim C5: for every variant, with billing access, a plan type matching
neither the community/limited-free tier nor the self-hosted/limited tier, no
pending-sponsorship redirect (no customer, no pending sponsorship, or on a
paid plan) and zero CustomerPlan rows, resolution yields the upgrade-page
redirect — covering both the no-Customer case and the
Customer-with-zero-plan-rows case. -/
theorem no_plan_rows_redirects_upgrade_page
    (u : UserProfile) (msg1 : String) (db1 : DB)
    (rrs : RemoteRealmBillingSession) (msg2 : String) (db2 : DB)
    (rss : RemoteServerBillingSession) (msg3 : String) (db3 : DB)
    (hacc : u.has_billing_access = true)
    (hfree1 : u.realm.plan_type ≠ Realm.PLAN_TYPE_STANDARD_FREE)
    (hlim1 : u.realm.plan_type ≠ Realm.PLAN_TYPE_LIMITED)
    (hzero1 : db1.customer_plan_count = 0)
    (hns1 : ∀ cust : Customer, db1.customer = some cust →
      cust.sponsorship_pending = true → db1.paid_plan = true)
    (hcom2 : rrs.remote_realm.plan_type ≠ RemoteRealm.PLAN_TYPE_COMMUNITY)
    (hsh2 : rrs.remote_realm.plan_type ≠ RemoteRealm.PLAN_TYPE_SELF_HOSTED)
    (hzero2 : db2.customer_plan_count = 0)
    (hns2 : ∀ cust : Customer, db2.customer = some cust →
      cust.sponsorship_pending = true → db2.paid_plan = true)
    (hcom3 : rss.remote_server.plan_type ≠ RemoteZulipServer.PLAN_TYPE_COMMUNITY)
    (hsh3 : rss.remote_server.plan_type ≠ RemoteZulipServer.PLAN_TYPE_SELF_HOSTED)
    (hzero3 : db3.customer_plan_count = 0)
    (hns3 : ∀ cust : Customer, db3.customer = some cust →
      cust.sponsorship_pending = true → db3.paid_plan = true) :
    (billing_page u msg1 db1).1 = .redirect "upgrade_page" []
    ∧ (remote_realm_billing_page rrs msg2 db2).1
      = .redirect "remote_realm_upgrade_page" [rrs.remote_realm.uuid]
    ∧ (remote_server_billing_page rss msg3 db3).1
      = .redirect "remote_server_upgrade_page" [rss.remote_server.uuid] := by
  refine ⟨?_, ?_, ?_⟩
  · cases hc : db1.customer with
    | none =>
      simp [billing_page, hacc, hfree1, hlim1, get_customer_by_realm, hc]
    | some cust =>
      cases hsp : cust.sponsorship_pending with
      | false =>
        simp [billing_page, hacc, hfree1, hlim1, get_customer_by_realm,
          customer_plan_exists, hc, hsp, hzero1]
      | true =>
        have hpaid := hns1 cust hc hsp
        simp [billing_page, hacc, hfree1, hlim1, get_customer_by_realm,
          RealmBillingSession.on_paid_plan, customer_plan_exists,
          hc, hsp, hpaid, hzero1]
  · cases hc : db2.customer with
    | none =>
      simp [remote_realm_billing_page, hcom2, hsh2,
        RemoteRealmBillingSession.get_customer, hc]
    | some cust =>
      cases hsp : cust.sponsorship_pending with
      | false =>
        simp [remote_realm_billing_page, hcom2, hsh2,
          RemoteRealmBillingSession.get_customer, customer_plan_exists,
          hc, hsp, hzero2]
      | true =>
        have hpaid := hns2 cust hc hsp
        simp [remote_realm_billing_page, hcom2, hsh2,
          RemoteRealmBillingSession.get_customer,
          RemoteRealmBillingSession.on_paid_plan, customer_plan_exists,
          hc, hsp, hpaid, hzero2]
  · cases hc : db3.customer with
    | none =>
      simp [remote_server_billing_page, hcom3, hsh3,
        RemoteServerBillingSession.get_customer, hc]
    | some cust =>
      cases hsp : cust.sponsorship_pending with
      | false =>
        simp [remote_server_billing_page, hcom3, hsh3,
          RemoteServerBillingSession.get_customer, customer_plan_exists,
          hc, hsp, hzero3]
      | true =>
        have hpaid := hns3 cust hc hsp
        simp [remote_server_billing_page, hcom3, hsh3,
          RemoteServerBillingSession.get_customer,
          RemoteServerBillingSession.on_paid_plan, customer_plan_exists,
          hc, hsp, hpaid, hzero3]

/-- Claim C5 witness: a concrete paid-tier account whose customer exists but
has zero plan rows gets the upgrade-page redirect in all three variants. -/
theorem no_plan_rows_redirects_upgrade_page_witness :
    (billing_page sampleUser "" zeroPlanRowsDB).1 = .redirect "upgrade_page" []
    ∧ (remote_realm_billing_page sampleRemoteRealmSession "" zeroPlanRowsDB).1
      = .redirect "remote_realm_upgrade_page" ["realm-uuid"]
    ∧ (remote_server_billing_page sampleRemoteServerSession "" zeroPlanRowsDB).1
      = .redirect "remote_server_upgrade_page" ["server-uuid"] :=
  no_plan_rows_redirects_upgrade_page
    sampleUser "" zeroPlanRowsDB
    sampleRemoteRealmSession "" zeroPlanRowsDB
    sampleRemoteServerSession "" zeroPlanRowsDB
    rfl (by decide) (by decide) rfl
    (by intro cust hcu hsp; injection hcu with h; subst h;
        exact Bool.noConfusion hsp)
    (by decide) (by decide) rfl
    (by intro cust hcu hsp; injection hcu with h; subst h;
        exact Bool.noConfusion hsp)
    (by decide) (by decide) rfl
    (by intro cust hcu hsp; injection hcu with h; subst h;
        exact Bool.noConfusion hsp)

/-- Claim C8: every resolver is a pure, read-only function of the current
state: the database state after a resolve call equals the state before it,
and every collaborator call in the trace is a read (never a write to the
Customer or CustomerPlan records), for all inputs of all three variants. -/
theorem resolvers_are_read_only
    (u : UserProfile) (msg1 : String) (db1 : DB)
    (rrs : RemoteRealmBillingSession) (msg2 : String) (db2 : DB)
    (rss : RemoteServerBillingSession) (msg3 : String) (db3 : DB) :
    ((billing_page u msg1 db1).2.1 = db1
      ∧ ∀ e ∈ (billing_page u msg1 db1).2.2, e.isRead = true)
    ∧ ((remote_realm_billing_page rrs msg2 db2).2.1 = db2
      ∧ ∀ e ∈ (remote_realm_billing_page rrs msg2 db2).2.2, e.isRead = true)
    ∧ ((remote_server_billing_page rss msg3 db3).2.1 = db3
      ∧ ∀ e ∈ (remote_server_billing_page rss msg3 db3).2.2, e.isRead = true) := by
  refine ⟨?_, ?_, ?_⟩
  · cases hacc : u.has_billing_access with
    | false => simp [billing_page, hacc]
    | true =>
      cases hc : db1.customer with
      | none =>
        simp [billing_page, billing_page_session, get_customer_by_realm,
          hacc, hc]
        (repeat' split) <;> simp_all [Effect.isRead]
      | some c =>
        cases hsp : c.sponsorship_pending with
        | false =>
          simp [billing_page, billing_page_session, get_customer_by_realm,
            customer_plan_exists, RealmBillingSession.get_billing_page_context,
            hacc, hc, hsp]
          (repeat' split) <;> simp_all [Effect.isRead]
        | true =>
          cases hpaid : db1.paid_plan with
          | false =>
            simp [billing_page, billing_page_session,
              get_customer_by_realm, RealmBillingSession.on_paid_plan,
              customer_plan_exists,
              RealmBillingSession.get_billing_page_context,
              hacc, hc, hsp, hpaid]
            (repeat' split) <;> simp_all [Effect.isRead]
          | true =>
            simp [billing_page, billing_page_session,
              get_customer_by_realm, RealmBillingSession.on_paid_plan,
              customer_plan_exists,
              RealmBillingSession.get_billing_page_context,
              hacc, hc, hsp, hpaid]
            (repeat' split) <;> simp_all [Effect.isRead]
  · cases hc : db2.customer with
    | none =>
      simp [remote_realm_billing_page,
        RemoteRealmBillingSession.get_customer, hc]
      (repeat' split) <;> simp_all [Effect.isRead]
    | some c =>
      cases hsp : c.sponsorship_pending with
      | false =>
        simp [remote_realm_billing_page,
          RemoteRealmBillingSession.get_customer, customer_plan_exists,
          RemoteRealmBillingSession.get_billing_page_context, hc, hsp]
        (repeat' split) <;> simp_all [Effect.isRead]
      | true =>
        cases hpaid : db2.paid_plan with
        | false =>
          simp [remote_realm_billing_page,
            RemoteRealmBillingSession.get_customer,
            RemoteRealmBillingSession.on_paid_plan, customer_plan_exists,
            RemoteRealmBillingSession.get_billing_page_context, hc, hsp, hpaid]
          (repeat' split) <;> simp_all [Effect.isRead]
        | true =>
          simp [remote_realm_billing_page,
            RemoteRealmBillingSession.get_customer,
            RemoteRealmBillingSession.on_paid_plan, customer_plan_exists,
            RemoteRealmBillingSession.get_billing_page_context, hc, hsp, hpaid]
          (repeat' split) <;> simp_all [Effect.isRead]
  · cases hc : db3.customer with
    | none =>
      simp [remote_server_billing_page,
        RemoteServerBillingSession.get_customer, hc]
      (repeat' split) <;> simp_all [Effect.isRead]
    | some c =>
      cases hsp : c.sponsorship_pending with
      | false =>
        simp [remote_server_billing_page,
          RemoteServerBillingSession.get_customer, customer_plan_exists,
          RemoteServerBillingSession.get_billing_page_context, hc, hsp]
        (repeat' split) <;> simp_all [Effect.isRead]
      | true =>
        cases hpaid : db3.paid_plan with
        | false =>
          simp [remote_server_billing_page,
            RemoteServerBillingSession.get_customer,
            RemoteServerBillingSession.on_paid_plan, customer_plan_exists,
            RemoteServerBillingSession.get_billing_page_context, hc, hsp, hpaid]
          (repeat' split) <;> simp_all [Effect.isRead]
        | true =>
          simp [remote_server_billing_page,
            RemoteServerBillingSession.get_customer,
            RemoteServerBillingSession.on_paid_plan, customer_plan_exists,
            RemoteServerBillingSession.get_billing_page_context, hc, hsp, hpaid]
          (repeat' split) <;> simp_all [Effect.isRead]

/-- Claim C6 counterexample: a request with `licenses = -3` is not rejected
by the boundary validator — each of the three entry points accepts it and
forwards the negative value to `do_update_plan` unchanged. -/
theorem negative_licenses_pass_boundary_cex :
    update_plan sampleUser none (some (-3)) none none
      = .ok (update_plan_session sampleUser,
          { status := none, licenses := some (-3),
            licenses_at_next_renewal := none, schedule := none })
    ∧ update_plan_for_remote_realm sampleRemoteRealmSession
        none (some (-3)) none none
      = .ok (sampleRemoteRealmSession,
          { status := none, licenses := some (-3),
            licenses_at_next_renewal := none, schedule := none })
    ∧ update_plan_for_remote_server sampleRemoteServerSession
        none (some (-3)) none none
      = .ok (sampleRemoteServerSession,
          { status := none, licenses := some (-3),
            licenses_at_next_renewal := none, schedule := none }) :=
  ⟨rfl, rfl, rfl⟩

/-- Claim C6 (amended): the boundary validator for `licenses` and
`licenses_at_next_renewal` only checks that the values are integers; every
integer — negative ones included — passes the boundary at all three entry
points and is forwarded to `do_update_plan` unchanged (any range check
happens inside the engine, not at the boundary). -/
theorem licenses_boundary_accepts_any_integer
    (u : UserProfile) (rrs : RemoteRealmBillingSession)
    (rss : RemoteServerBillingSession) (n m : Int) :
    update_plan u none (some n) (some m) none
      = .ok (update_plan_session u,
          { status := none, licenses := some n,
            licenses_at_next_renewal := some m, schedule := none })
    ∧ update_plan_for_remote_realm rrs none (some n) (some m) none
      = .ok (rrs,
          { status := none, licenses := some n,
            licenses_at_next_renewal := some m, schedule := none })
    ∧ update_plan_for_remote_server rss none (some n) (some m) none
      = .ok (rss,
          { status := none, licenses := some n,
            licenses_at_next_renewal := some m, schedule := none }) :=
  ⟨rfl, rfl, rfl⟩

/-- Claim C7 counterexample: a request whose `schedule` is 17 — outside the
monthly/annual enumeration — is not rejected by the boundary validator: each
of the three entry points accepts it and forwards it to `do_update_plan`. -/
theorem out_of_range_schedule_passes_boundary_cex :
    (17 : Int) ≠ CustomerPlan.BILLING_SCHEDULE_ANNUAL
    ∧ (17 : Int) ≠ CustomerPlan.BILLING_SCHEDULE_MONTHLY
    ∧ update_plan sampleUser none none none (some 17)
      = .ok (update_plan_session sampleUser,
          { status := none, licenses := none,
            licenses_at_next_renewal := none, schedule := some 17 })
    ∧ update_plan_for_remote_realm sampleRemoteRealmSession
        none none none (some 17)
      = .ok (sampleRemoteRealmSession,
          { status := none, licenses := none,
            licenses_at_next_renewal := none, schedule := some 17 })
    ∧ update_plan_for_remote_server sampleRemoteServerSession
        none none none (some 17)
      = .ok (sampleRemoteServerSession,
          { status := none, licenses := none,
            licenses_at_next_renewal := none, schedule := some 17 }) :=
  ⟨by decide, by decide, rfl, rfl, rfl⟩

/-- Claim C7 (amended): the boundary validator for `schedule` only checks
integer-ness; every integer — inside or outside the monthly/annual
enumeration — passes the boundary at all three entry points and is forwarded
to `do_update_plan` unchanged (the cadence check happens inside the engine,
not at the boundary). -/
theorem schedule_boundary_accepts_any_integer
    (u : UserProfile) (rrs : RemoteRealmBillingSession)
    (rss : RemoteServerBillingSession) (n : Int) :
    update_plan u none none none (some n)
      = .ok (update_plan_session u,
          { status := none, licenses := none,
            licenses_at_next_renewal := none, schedule := some n })
    ∧ update_plan_for_remote_realm rrs none none none (some n)
      = .ok (rrs,
          { status := none, licenses := none,
            licenses_at_next_renewal := none, schedule := some n })
    ∧ update_plan_for_remote_server rss none none none (some n)
      = .ok (rss,
          { status := none, licenses := none,
            licenses_at_next_renewal := none, schedule := some n }) :=
  ⟨rfl, rfl, rfl⟩

end Billing
